import Mathlib

/-!
Verification development for the `bloxel` renderer (src/renderer.rs, src/main.rs).

Shallow embedding conventions:
* GPU object handles (fences, semaphores, image views, framebuffers, command
  buffers, pipelines, ...) are modelled as `Nat` identifiers; the embedding
  only tracks which handle is used where, which is what the claims are about.
* `u32` quantities are `Nat` with explicit wrapping where the Rust code can
  wrap (`caps.image_count.end - 1`), via `wsub`.
* Fallible external device calls are driven by explicit environment records
  (`FrameEnv`, `PipelineEnv`) saying which call succeeds; a Rust `?` becomes
  an `Except.error` / early return, and a Rust `.unwrap()` on a failure is
  modelled as the distinguished `Outcome.panicked` result (a process abort,
  not a returned error).
* Error strings follow the source text, with apostrophes elided
  (e.g. "Couldnt reset the fence!" for the source's "Couldn't reset the fence!").
* The window argument is the window client area in physical pixels, i.e. the
  value of `window.get_inner_size().unwrap().to_physical(hidpi)`.
-/

deriving instance DecidableEq for Except

/-- Two-dimensional extent in pixels (gfx_hal `Extent2D`, `u32` fields). -/
structure Extent2D where
  width : Nat
  height : Nat
deriving DecidableEq, Repr

/-- Rectangle (gfx_hal `Rect`); `extent.to_extent().rect()` yields the
rectangle at the origin with the extent's size. -/
structure Rect where
  x : Nat
  y : Nat
  w : Nat
  h : Nat
deriving DecidableEq, Repr

/-- Model of `extent.to_extent().rect()` from the source. -/
def Extent2D.rect (e : Extent2D) : Rect :=
  { x := 0, y := 0, w := e.width, h := e.height }

/-- gfx_hal `PresentMode` (the four variants used by the source). -/
inductive PresentMode where
  | Mailbox
  | Fifo
  | Relaxed
  | Immediate
deriving DecidableEq, Repr

/-- gfx_hal `CompositeAlpha` flags tried by the source, in its order. -/
inductive CompositeAlpha where
  | OPAQUE
  | INHERIT
  | PREMULTIPLIED
  | POSTMULTIPLIED
deriving DecidableEq, Repr

/-- gfx_hal `ChannelType` (only the distinctions the source inspects). -/
inductive ChannelType where
  | Srgb
  | Unorm
  | Sfloat
deriving DecidableEq, Repr

/-- gfx_hal `Format`: a small representative sample of the format enum. -/
inductive Format where
  | Rgba8Srgb
  | Bgra8Srgb
  | Rgba8Unorm
  | Bgra8Unorm
  | Rg32Sfloat
deriving DecidableEq, Repr

/-- The `ChannelType` component of `format.base_format().1` in gfx_hal. -/
def Format.channelType : Format → ChannelType
  | .Rgba8Srgb => .Srgb
  | .Bgra8Srgb => .Srgb
  | .Rgba8Unorm => .Unorm
  | .Bgra8Unorm => .Unorm
  | .Rg32Sfloat => .Sfloat

/-- gfx_hal `PipelineStage` (only the stage the source uses plus one other,
so that stage equality is not vacuous). -/
inductive PipelineStage where
  | COLOR_ATTACHMENT_OUTPUT
  | BOTTOM_OF_PIPE
deriving DecidableEq, Repr

/-- Modulus of `u32` arithmetic. -/
def U32_MOD : Nat := 4294967296

/-- Wrapping `u32` subtraction `a - b` (release-mode Rust semantics), for
inputs already reduced mod `2^32`. -/
def wsub (a b : Nat) : Nat :=
  (a % U32_MOD + (U32_MOD - b % U32_MOD)) % U32_MOD

/-- What `surface.compatibility(&adapter.physical_device)` reports: the
surface capabilities (`caps`), preferred format list and present modes that
`create_swapchain` consumes.  `caps_extents_start` is reported by the API but
never read by the source. -/
structure SurfaceInfo where
  caps_image_count_start : Nat
  caps_image_count_end : Nat
  caps_extents_start : Extent2D
  caps_extents_end : Extent2D
  caps_usage_color_attachment : Bool
  composite_alphas : List CompositeAlpha
  preferred_formats : Option (List Format)
  present_modes : List PresentMode
deriving DecidableEq, Repr

/-- Present-mode selection from `create_swapchain`: first of
`[Mailbox, Fifo, Relaxed, Immediate]` contained in the supported list;
the source `.unwrap()`s the failure (modelled as `Except.error`). -/
def choose_present_mode (present_modes : List PresentMode) : Except String PresentMode :=
  match [PresentMode.Mailbox, PresentMode.Fifo,
         PresentMode.Relaxed, PresentMode.Immediate].find?
      (fun pm => present_modes.contains pm) with
  | some pm => .ok pm
  | none => .error "No PresentMode values specified!"

/-- Composite-alpha selection from `create_swapchain`: first of
`[OPAQUE, INHERIT, PREMULTIPLIED, POSTMULTIPLIED]` supported. -/
def choose_composite_alpha (supported : List CompositeAlpha) : Except String CompositeAlpha :=
  match [CompositeAlpha.OPAQUE, CompositeAlpha.INHERIT,
         CompositeAlpha.PREMULTIPLIED, CompositeAlpha.POSTMULTIPLIED].find?
      (fun ca => supported.contains ca) with
  | some ca => .ok ca
  | none => .error "No CompositeAlpha values specified!"

/-- Format selection from `create_swapchain`: no preference list defaults to
`Rgba8Srgb`; otherwise the first format whose channel type is `Srgb`, falling
back to the first listed format; an empty list panics in the source
(`.unwrap()` on "Preferred format list was empty!"). -/
def choose_format (preferred_formats : Option (List Format)) : Except String Format :=
  match preferred_formats with
  | none => .ok Format.Rgba8Srgb
  | some formats =>
    match formats.find? (fun format => format.channelType == ChannelType.Srgb) with
    | some srgb_format => .ok srgb_format
    | none =>
      match formats.get? 0 with
      | some first => .ok first
      | none => .error "Preferred format list was empty!"

/-- Extent selection from `create_swapchain`: per dimension, the minimum of
`caps.extents.end` and the window client area.  The source never reads
`caps.extents.start`. -/
def chosen_extent (caps_extents_end window : Extent2D) : Extent2D :=
  { width := min caps_extents_end.width window.width,
    height := min caps_extents_end.height window.height }

/-- Image-count selection from `create_swapchain`:
`(caps.image_count.end - 1).min(caps.image_count.start.max(3))` under Mailbox,
with `2` in place of `3` otherwise (`u32` arithmetic). -/
def chosen_image_count (present_mode : PresentMode) (count_start count_end : Nat) : Nat :=
  if present_mode == PresentMode.Mailbox then
    min (wsub count_end 1) (max count_start 3)
  else
    min (wsub count_end 1) (max count_start 2)

/-- Outcome of `HalState::create_swapchain`: the new chain's extent, its
backbuffer images (handles `0, 1, ...`), negotiated format and image count.
The swapchain handle itself is tracked by the caller as a generation
counter. -/
structure SwapchainOut where
  extent : Extent2D
  backbuffer : List Nat
  format : Format
  image_count : Nat
deriving DecidableEq, Repr

/-- Model of `HalState::create_swapchain` (renderer.rs lines 321-423).  All
internal `.unwrap()`s (panics in the source) surface as `Except.error` here;
the function never returns an error to its Rust caller. -/
def create_swapchain (window : Extent2D) (surf : SurfaceInfo) : Except String SwapchainOut :=
  match choose_present_mode surf.present_modes with
  | .error e => .error e
  | .ok present_mode =>
    match choose_composite_alpha surf.composite_alphas with
    | .error e => .error e
    | .ok _composite_alpha =>
      match choose_format surf.preferred_formats with
      | .error e => .error e
      | .ok format =>
        let extent := chosen_extent surf.caps_extents_end window
        let image_count :=
          chosen_image_count present_mode surf.caps_image_count_start surf.caps_image_count_end
        if surf.caps_usage_color_attachment then
          .ok { extent := extent, backbuffer := List.range image_count,
                format := format, image_count := image_count }
        else
          .error "The Surface isnt capable of supporting color!"

/-- Success/failure switches for the external device calls made by
`HalState::create_pipeline` (shader compilation, module creation, layout and
pipeline creation). -/
structure PipelineEnv where
  compiler_ok : Bool
  vertex_compile_ok : Bool
  fragment_compile_ok : Bool
  vertex_module_ok : Bool
  fragment_module_ok : Bool
  descriptor_set_layout_ok : Bool
  pipeline_layout_ok : Bool
  graphics_pipeline_ok : Bool
deriving DecidableEq, Repr

/-- Successful result of `HalState::create_pipeline`. -/
structure PipelineOut where
  descriptor_set_layouts : List Nat
  pipeline_layout : Nat
  graphics_pipeline : Nat
deriving DecidableEq, Repr

/-- Handle of the vertex shader module created by `create_pipeline`. -/
def VERTEX_MODULE : Nat := 61

/-- Handle of the fragment shader module created by `create_pipeline`. -/
def FRAGMENT_MODULE : Nat := 62

/-- Result of a `create_pipeline` call together with the shader modules it
destroyed before returning (observing the `destroy_shader_module` calls). -/
structure PipelineCall where
  result : Except String PipelineOut
  destroyed_modules : List Nat
deriving DecidableEq, Repr

/-- Model of `HalState::create_pipeline` (renderer.rs lines 639-825).  The
`?` operators inside the inner block return from the function before the
`destroy_shader_module` calls at lines 819-822 are reached, so only the
success path records any destroyed module. -/
def create_pipeline (env : PipelineEnv) : PipelineCall :=
  if env.compiler_ok = false then
    { result := .error "shaderc not found!", destroyed_modules := [] }
  else if env.vertex_compile_ok = false then
    { result := .error "Couldnt compile vertex shader!", destroyed_modules := [] }
  else if env.fragment_compile_ok = false then
    { result := .error "Couldnt compile fragment shader!", destroyed_modules := [] }
  else if env.vertex_module_ok = false then
    { result := .error "Couldnt make the vertex module", destroyed_modules := [] }
  else if env.fragment_module_ok = false then
    { result := .error "Couldnt make the fragment module", destroyed_modules := [] }
  else if env.descriptor_set_layout_ok = false then
    { result := .error "Couldnt make a DescriptorSetLayout", destroyed_modules := [] }
  else if env.pipeline_layout_ok = false then
    { result := .error "Couldnt create a pipeline layout", destroyed_modules := [] }
  else if env.graphics_pipeline_ok = false then
    { result := .error "Couldnt create a graphics pipeline!", destroyed_modules := [] }
  else
    { result := .ok { descriptor_set_layouts := [71], pipeline_layout := 72,
                      graphics_pipeline := 73 },
      destroyed_modules := [VERTEX_MODULE, FRAGMENT_MODULE] }

/-- The fields of `HalState` (renderer.rs lines 27-51) that the claims
observe, with GPU handles as `Nat` ids.  `swapchain` is a generation counter
(bumped on recreation); the device, adapter, surface and instance handles are
external objects the claims never inspect and are omitted. -/
structure HalState where
  buffer : Nat
  memory : Nat
  requirements : Nat
  descriptor_set_layouts : List Nat
  pipeline_layout : Nat
  graphics_pipeline : Nat
  current_frame : Nat
  frames_in_flight : Nat
  in_flight_fences : List Nat
  render_finished_semaphores : List Nat
  image_available_semaphores : List Nat
  command_buffers : List Nat
  command_pool : Nat
  framebuffers : List Nat
  image_views : List Nat
  render_pass : Nat
  render_area : Rect
  queue_group_queues : List Nat
  swapchain : Nat
deriving DecidableEq, Repr

/-- Model of `HalState::new` (renderer.rs lines 54-257), starting after the
device bootstrap: swap-chain negotiation, the synchronization ring
(`frames_in_flight` fences and semaphore pairs), one image view and
framebuffer per backbuffer image, one command buffer per framebuffer, the
pipeline, and the vertex buffer.  Fresh handles use disjoint id ranges
(fences `0+k`, image-available semaphores `1000+k`, render-finished
semaphores `2000+k`, image views `3000+image`, framebuffers `4000+image`,
command buffers `5000+k`).  Device-object creations whose failure is purely
external (fences, semaphores, views, framebuffers, buffer, memory) are
modelled as succeeding; `create_swapchain`'s internal panics and
`create_pipeline`'s errors surface as `Except.error`. -/
def HalState.new (window : Extent2D) (surf : SurfaceInfo) (penv : PipelineEnv) :
    Except String HalState :=
  match create_swapchain window surf with
  | .error e => .error e
  | .ok sc =>
    let frames_in_flight := sc.image_count
    match (create_pipeline penv).result with
    | .error e => .error e
    | .ok pl =>
      .ok { buffer := 90
            memory := 91
            requirements := 94
            descriptor_set_layouts := pl.descriptor_set_layouts
            pipeline_layout := pl.pipeline_layout
            graphics_pipeline := pl.graphics_pipeline
            current_frame := 0
            frames_in_flight := frames_in_flight
            in_flight_fences := List.range frames_in_flight
            render_finished_semaphores := (List.range frames_in_flight).map (fun k => 2000 + k)
            image_available_semaphores := (List.range frames_in_flight).map (fun k => 1000 + k)
            command_buffers :=
              (List.range (sc.backbuffer.map (fun im => 3000 + im)).length).map (fun k => 5000 + k)
            command_pool := 92
            framebuffers := sc.backbuffer.map (fun im => 4000 + im)
            image_views := sc.backbuffer.map (fun im => 3000 + im)
            render_pass := 93
            render_area := sc.extent.rect
            queue_group_queues := [80]
            swapchain := 0 }

/-- Model of `HalState::recreate_swapchain` (renderer.rs lines 425-493):
waits for idle, resets the command pool, destroys the framebuffers and image
views, renegotiates the swap chain (passing the old one as hint; modelled as
bumping the generation counter), and rebuilds only the image views, the
framebuffers and the render area.  The renegotiated image count
(`_frames_in_flight` in the source) is discarded: `frames_in_flight`, the
synchronization ring and the command buffers are left as they were.  Its
internal `.unwrap()`s (panics) surface as `Except.error`. -/
def HalState.recreate_swapchain (s : HalState) (window : Extent2D) (surf : SurfaceInfo) :
    Except String HalState :=
  match create_swapchain window surf with
  | .error e => .error e
  | .ok sc =>
    .ok { s with
          swapchain := s.swapchain + 1
          image_views := sc.backbuffer.map (fun im => 3000 + im)
          framebuffers := sc.backbuffer.map (fun im => 4000 + im)
          render_area := sc.extent.rect }

/-- Result of `swapchain.acquire_image` as driven by the environment: either
a swap-image index, or one of the failures the source `.unwrap()`s away. -/
inductive AcquireResult where
  | success (image_index : Nat)
  | outOfDate
  | otherError
deriving DecidableEq, Repr

/-- Success/failure switches for the external calls made during one frame of
`draw_clear_frame` / `draw_triangle_frame`.  The writer flags only apply to
`draw_triangle_frame`'s vertex-buffer mapping. -/
structure FrameEnv where
  acquire : AcquireResult
  wait_fence_ok : Bool
  reset_fence_ok : Bool
  acquire_writer_ok : Bool
  release_writer_ok : Bool
  present_ok : Bool
deriving DecidableEq, Repr

/-- Observable GPU interactions of one draw call: which semaphore was handed
to `acquire_image`, which fence was waited on / reset / armed at submission,
which semaphores the submission waits on (and at which stage) and signals,
and what presentation waited on. -/
structure FrameTrace where
  acquire_semaphore : Option Nat
  waited_fence : Option Nat
  fence_reset : Option Nat
  recorded_command_buffer : Option Nat
  recorded_framebuffer : Option Nat
  bound_pipeline : Option Nat
  submit_wait_semaphore : Option Nat
  submit_wait_stage : Option PipelineStage
  submit_signal_semaphore : Option Nat
  submit_fence : Option Nat
  present_wait_semaphore : Option Nat
  presented_image : Option Nat
deriving DecidableEq, Repr

/-- The empty trace (no GPU interaction recorded yet). -/
def FrameTrace.empty : FrameTrace :=
  { acquire_semaphore := none
    waited_fence := none
    fence_reset := none
    recorded_command_buffer := none
    recorded_framebuffer := none
    bound_pipeline := none
    submit_wait_semaphore := none
    submit_wait_stage := none
    submit_signal_semaphore := none
    submit_fence := none
    present_wait_semaphore := none
    presented_image := none }

/-- How a draw call ends: `ok` (`Ok` in Rust), `err` (an `Err` returned to
the caller), or `panicked` (a Rust panic — `.unwrap()` on a failure, an
out-of-bounds index, or `%` by zero — which aborts rather than returns). -/
inductive Outcome where
  | ok
  | err (msg : String)
  | panicked (msg : String)
deriving DecidableEq, Repr

/-- Post-state, trace and outcome of one draw call. -/
structure DrawOutput where
  state : HalState
  trace : FrameTrace
  outcome : Outcome
deriving DecidableEq, Repr

/-- Model of `HalState::draw_clear_frame` (renderer.rs lines 259-319).
The image-available and render-finished semaphores are taken at the current
rotation slot, the frame counter is advanced, an image is acquired signalling
that same image-available semaphore, the in-flight fence **of the acquired
image index** is waited on and reset, the command buffer and framebuffer of
that index are recorded, and the submission waits on the image-available
semaphore at COLOR_ATTACHMENT_OUTPUT, signals the render-finished semaphore
and arms that fence; presentation waits on the render-finished semaphore. -/
def HalState.draw_clear_frame (s : HalState) (env : FrameEnv) : DrawOutput :=
  match s.image_available_semaphores.get? s.current_frame,
        s.render_finished_semaphores.get? s.current_frame with
  | some image_available, some render_finished =>
    if s.frames_in_flight = 0 then
      { state := s, trace := FrameTrace.empty,
        outcome := .panicked "remainder by zero" }
    else
      let s1 := { s with current_frame := (s.current_frame + 1) % s.frames_in_flight }
      let t0 := { FrameTrace.empty with acquire_semaphore := some image_available }
      match env.acquire with
      | .success i =>
        match s1.in_flight_fences.get? i with
        | none => { state := s1, trace := t0, outcome := .panicked "fence index out of bounds" }
        | some flight_fence =>
          if env.wait_fence_ok = false then
            { state := s1, trace := t0, outcome := .err "Failed to wait on the fence!" }
          else
            let t1 := { t0 with waited_fence := some flight_fence }
            if env.reset_fence_ok = false then
              { state := s1, trace := t1, outcome := .err "Couldnt reset the fence!" }
            else
              let t2 := { t1 with fence_reset := some flight_fence }
              match s1.command_buffers.get? i, s1.framebuffers.get? i with
              | some cb, some fb =>
                match s1.queue_group_queues.get? 0 with
                | none =>
                  { state := s1, trace := t2, outcome := .panicked "queue index out of bounds" }
                | some _queue =>
                  let t3 := { t2 with
                              recorded_command_buffer := some cb
                              recorded_framebuffer := some fb
                              submit_wait_semaphore := some image_available
                              submit_wait_stage := some PipelineStage.COLOR_ATTACHMENT_OUTPUT
                              submit_signal_semaphore := some render_finished
                              submit_fence := some flight_fence
                              present_wait_semaphore := some render_finished
                              presented_image := some i }
                  if env.present_ok then
                    { state := s1, trace := t3, outcome := .ok }
                  else
                    { state := s1, trace := t3,
                      outcome := .err "Failed to present into the swapchain!" }
              | _, _ =>
                { state := s1, trace := t2,
                  outcome := .panicked "command buffer or framebuffer index out of bounds" }
      | _ =>
        { state := s1, trace := t0, outcome := .panicked "acquire_image failed" }
  | _, _ =>
    { state := s, trace := FrameTrace.empty,
      outcome := .panicked "semaphore index out of bounds" }

/-- Model of `HalState::draw_triangle_frame` (renderer.rs lines 556-636).
Unlike `draw_clear_frame`, the source passes
`self.image_available_semaphores[self.current_frame]` to `acquire_image`
**after** the frame counter was advanced (line 566), while the submission
still waits on the semaphore of the slot read before the advance; it also
writes the triangle into the mapped vertex buffer (the float payload is not
observable by any claim and is not tracked) and binds the pipeline and the
vertex buffer before a 3-vertex, 1-instance draw. -/
def HalState.draw_triangle_frame (s : HalState) (env : FrameEnv) : DrawOutput :=
  match s.image_available_semaphores.get? s.current_frame,
        s.render_finished_semaphores.get? s.current_frame with
  | some image_available, some render_finished =>
    if s.frames_in_flight = 0 then
      { state := s, trace := FrameTrace.empty,
        outcome := .panicked "remainder by zero" }
    else
      let s1 := { s with current_frame := (s.current_frame + 1) % s.frames_in_flight }
      match s1.image_available_semaphores.get? s1.current_frame with
      | none =>
        { state := s1, trace := FrameTrace.empty,
          outcome := .panicked "semaphore index out of bounds" }
      | some acquire_sem =>
        let t0 := { FrameTrace.empty with acquire_semaphore := some acquire_sem }
        match env.acquire with
        | .success i =>
          match s1.in_flight_fences.get? i with
          | none => { state := s1, trace := t0, outcome := .panicked "fence index out of bounds" }
          | some flight_fence =>
            if env.wait_fence_ok = false then
              { state := s1, trace := t0, outcome := .err "Failed to wait on the fence!" }
            else
              let t1 := { t0 with waited_fence := some flight_fence }
              if env.reset_fence_ok = false then
                { state := s1, trace := t1, outcome := .err "Couldnt reset the fence!" }
              else
                let t2 := { t1 with fence_reset := some flight_fence }
                if env.acquire_writer_ok = false then
                  { state := s1, trace := t2,
                    outcome := .err "Failed to acquire a memory writer!" }
                else if env.release_writer_ok = false then
                  { state := s1, trace := t2,
                    outcome := .err "Couldnt release the mapping writer!" }
                else
                  match s1.command_buffers.get? i, s1.framebuffers.get? i with
                  | some cb, some fb =>
                    match s1.queue_group_queues.get? 0 with
                    | none =>
                      { state := s1, trace := t2,
                        outcome := .panicked "queue index out of bounds" }
                    | some _queue =>
                      let t3 := { t2 with
                                  recorded_command_buffer := some cb
                                  recorded_framebuffer := some fb
                                  bound_pipeline := some s1.graphics_pipeline
                                  submit_wait_semaphore := some image_available
                                  submit_wait_stage := some PipelineStage.COLOR_ATTACHMENT_OUTPUT
                                  submit_signal_semaphore := some render_finished
                                  submit_fence := some flight_fence
                                  present_wait_semaphore := some render_finished
                                  presented_image := some i }
                      if env.present_ok then
                        { state := s1, trace := t3, outcome := .ok }
                      else
                        { state := s1, trace := t3,
                          outcome := .err "Failed to present into the swapchain!" }
                  | _, _ =>
                    { state := s1, trace := t2,
                      outcome := .panicked "command buffer or framebuffer index out of bounds" }
        | _ =>
          { state := s1, trace := t0, outcome := .panicked "acquire_image failed" }
  | _, _ =>
    { state := s, trace := FrameTrace.empty,
      outcome := .panicked "semaphore index out of bounds" }

/-- Per-poll input delivered by the windowing collaborator (main.rs
`UserInput`; mouse coordinates are not observable by any claim). -/
structure PollInput where
  end_requested : Bool
  new_frame_size : Option (Nat × Nat)
deriving DecidableEq, Repr

/-- What one iteration of the render loop does next. -/
inductive LoopStep where
  | halted
  | continued
  | panicked (msg : String)
deriving DecidableEq, Repr

/-- Model of one iteration of the loop in `main` (main.rs lines 22-39): stop
on a close request; on a resize, recreate the swap chain and continue,
skipping the draw; otherwise draw a triangle frame, and on a returned `Err`
log it and continue with the next poll iteration.  A panic inside
`recreate_swapchain` or the draw aborts the process. -/
def main_loop_iteration (inputs : PollInput) (s : HalState) (window : Extent2D)
    (surf : SurfaceInfo) (env : FrameEnv) : LoopStep × HalState :=
  if inputs.end_requested then
    (.halted, s)
  else
    match inputs.new_frame_size with
    | some _ =>
      match s.recreate_swapchain window surf with
      | .ok s2 => (.continued, s2)
      | .error e => (.panicked e, s)
    | none =>
      let o := s.draw_triangle_frame env
      match o.outcome with
      | .ok => (.continued, o.state)
      | .err _ => (.continued, o.state)
      | .panicked m => (.panicked m, o.state)

/-- Window client area used by the concrete witnesses (the source default
window is 400 by 300 logical pixels). -/
def testWindow : Extent2D := { width := 400, height := 300 }

/-- A surface supporting only Fifo, image counts 1..4 (so negotiated count
2), an unconstrained extent range and no format preference. -/
def surfFifo : SurfaceInfo :=
  { caps_image_count_start := 1
    caps_image_count_end := 4
    caps_extents_start := { width := 1, height := 1 }
    caps_extents_end := { width := 4096, height := 4096 }
    caps_usage_color_attachment := true
    composite_alphas := [CompositeAlpha.OPAQUE]
    preferred_formats := none
    present_modes := [PresentMode.Fifo] }

/-- A surface supporting Mailbox, image counts 1..5 (negotiated count 3). -/
def surfMailbox : SurfaceInfo :=
  { surfFifo with
    caps_image_count_end := 5
    present_modes := [PresentMode.Mailbox, PresentMode.Fifo] }

/-- All pipeline sub-steps succeed. -/
def okPenv : PipelineEnv :=
  { compiler_ok := true, vertex_compile_ok := true, fragment_compile_ok := true
    vertex_module_ok := true, fragment_module_ok := true
    descriptor_set_layout_ok := true, pipeline_layout_ok := true
    graphics_pipeline_ok := true }

/-- A frame in which acquisition returns image 0 and every device call
succeeds. -/
def envOk : FrameEnv :=
  { acquire := .success 0, wait_fence_ok := true, reset_fence_ok := true
    acquire_writer_ok := true, release_writer_ok := true, present_ok := true }

/-- The state `HalState::new` produces for `testWindow` and `surfFifo`
(two frames in flight, `current_frame = 0`). -/
def testHal : HalState :=
  { buffer := 90
    memory := 91
    requirements := 94
    descriptor_set_layouts := [71]
    pipeline_layout := 72
    graphics_pipeline := 73
    current_frame := 0
    frames_in_flight := 2
    in_flight_fences := [0, 1]
    render_finished_semaphores := [2000, 2001]
    image_available_semaphores := [1000, 1001]
    command_buffers := [5000, 5001]
    command_pool := 92
    framebuffers := [4000, 4001]
    image_views := [3000, 3001]
    render_pass := 93
    render_area := { x := 0, y := 0, w := 400, h := 300 }
    queue_group_queues := [80]
    swapchain := 0 }

/-- A surface identical to `surfFifo` but reporting a fixed extent range
(minimum = maximum = 100 by 100). -/
def surfFixedExtent : SurfaceInfo :=
  { surfFifo with
    caps_extents_start := { width := 100, height := 100 }
    caps_extents_end := { width := 100, height := 100 } }

/-- A frame in which `acquire_image` reports the swap chain out of date. -/
def envOutOfDate : FrameEnv := { envOk with acquire := .outOfDate }

/-- A frame in which the fence wait fails (and everything else succeeds). -/
def envWaitFail : FrameEnv := { envOk with wait_fence_ok := false }

/-- Pipeline environment in which the final graphics-pipeline creation step
fails (all earlier sub-steps, including both shader modules, succeed). -/
def penvPipelineFail : PipelineEnv := { okPenv with graphics_pipeline_ok := false }

/-- Modelled from the spec: "Extent: clamp the window's current client-area
size (in physical pixels) to the surface's supported min/max extent range; if
the surface reports a fixed extent (min==max==its own value), use that
regardless of window size."  (A per-dimension clamp into
`[caps.extents.start, caps.extents.end]`; when start = end this always
returns that fixed value.)  Stated only to compare against the source's
`chosen_extent`. -/
def spec_extent (caps_extents_start caps_extents_end window : Extent2D) : Extent2D :=
  { width := max caps_extents_start.width (min window.width caps_extents_end.width),
    height := max caps_extents_start.height (min window.height caps_extents_end.height) }

/-- Unwrapping `wsub` for in-range `u32` values: wrapping subtraction of one
agrees with truncated subtraction when the minuend is positive. -/
theorem wsub_one_eq (n : Nat) (h1 : 1 ≤ n) (h2 : n < U32_MOD) : wsub n 1 = n - 1 := by
  unfold wsub U32_MOD
  unfold U32_MOD at h2
  omega

/-- Anatomy of a successful `create_swapchain` call: the extent is
`chosen_extent`, the backbuffer has exactly `image_count` images, the image
count is `chosen_image_count` for the selected present mode, the format is
the selected format, and the surface supported color attachment. -/
theorem create_swapchain_ok (window : Extent2D) (surf : SurfaceInfo) (sc : SwapchainOut)
    (hsc : create_swapchain window surf = .ok sc) :
    sc.extent = chosen_extent surf.caps_extents_end window ∧
    sc.backbuffer = List.range sc.image_count ∧
    (∃ pm, choose_present_mode surf.present_modes = .ok pm ∧
      sc.image_count =
        chosen_image_count pm surf.caps_image_count_start surf.caps_image_count_end) ∧
    (∃ fmt, choose_format surf.preferred_formats = .ok fmt ∧ sc.format = fmt) ∧
    surf.caps_usage_color_attachment = true := by
  unfold create_swapchain at hsc
  cases hpm : choose_present_mode surf.present_modes with
  | error e => rw [hpm] at hsc; cases hsc
  | ok pm =>
    rw [hpm] at hsc
    cases hca : choose_composite_alpha surf.composite_alphas with
    | error e => rw [hca] at hsc; cases hsc
    | ok ca =>
      rw [hca] at hsc
      cases hf : choose_format surf.preferred_formats with
      | error e => rw [hf] at hsc; cases hsc
      | ok fmt =>
        rw [hf] at hsc
        cases hu : surf.caps_usage_color_attachment with
        | false => rw [hu] at hsc; simp at hsc
        | true =>
          rw [hu] at hsc
          simp at hsc
          subst hsc
          exact ⟨rfl, rfl, ⟨pm, rfl, rfl⟩, ⟨fmt, rfl, rfl⟩, rfl⟩

/-- A `find?` returns the entry at the first index satisfying the
predicate. -/
theorem list_find_first {α : Type} (p : α → Bool) (l : List α) :
    ∀ (i : Nat) (hi : i < l.length),
      p (l.get ⟨i, hi⟩) = true →
      (∀ j (hj : j < i), p (l.get ⟨j, Nat.lt_trans hj hi⟩) = false) →
      l.find? p = some (l.get ⟨i, hi⟩) := by
  induction l with
  | nil => intro i hi; exact absurd hi (by simp)
  | cons a l ih =>
    intro i hi hp hfirst
    cases i with
    | zero =>
      simp only [List.get] at hp
      simp [List.find?, hp]
    | succ n =>
      have ha : p a = false := by
        have h0 := hfirst 0 (Nat.succ_pos n)
        simpa using h0
      have hn : n < l.length := Nat.lt_of_succ_lt_succ hi
      have hrec := ih n hn (by simpa using hp) (fun j hj => by
        have hj1 := hfirst (j + 1) (Nat.succ_lt_succ hj)
        simpa using hj1)
      simp [List.find?, ha, hrec]

/-- C7: for every preferred-format list reported by the surface, the format
selector returns the default 8-bit sRGB format when no list is present,
returns the first sRGB entry in list order when one exists, and otherwise
returns the first listed entry. -/
theorem c7_format_selection (l : List Format) (i : Nat) (hi : i < l.length) :
    choose_format none = .ok Format.Rgba8Srgb ∧
    ((l.get ⟨i, hi⟩).channelType = ChannelType.Srgb →
      (∀ j (hj : j < i), (l.get ⟨j, Nat.lt_trans hj hi⟩).channelType ≠ ChannelType.Srgb) →
      choose_format (some l) = .ok (l.get ⟨i, hi⟩)) ∧
    ((∀ g, g ∈ l → g.channelType ≠ ChannelType.Srgb) →
      choose_format (some l) = .ok (l.get ⟨0, Nat.lt_of_le_of_lt (Nat.zero_le i) hi⟩)) := by
  refine ⟨rfl, ?_, ?_⟩
  · intro hp hfirst
    have hfind := list_find_first (fun format => format.channelType == ChannelType.Srgb) l i hi
      (by simpa using hp) (fun j hj => by simpa using hfirst j hj)
    simp [choose_format, hfind]
  · intro hnone
    have hfind : l.find? (fun format => format.channelType == ChannelType.Srgb) = none := by
      rw [List.find?_eq_none]
      intro g hg
      simpa using hnone g hg
    have hget : l[0]? = some l[0] :=
      List.getElem?_eq_getElem (Nat.lt_of_le_of_lt (Nat.zero_le i) hi)
    simp [choose_format, hfind, hget]

/-- Witness for C7 at a concrete list whose first sRGB entry sits at index
one. -/
theorem c7_format_selection_witness :
    choose_format (some [Format.Rgba8Unorm, Format.Bgra8Srgb, Format.Rgba8Srgb]) =
      .ok Format.Bgra8Srgb := by
  have h := c7_format_selection [Format.Rgba8Unorm, Format.Bgra8Srgb, Format.Rgba8Srgb] 1
    (by decide)
  exact h.2.1 (by decide) (fun j hj => by
    have hj0 : j = 0 := by omega
    subst hj0
    simp [Format.channelType])

/-- C5: `create_swapchain` requests 3 images under Mailbox and 2 otherwise,
and whenever the surface's image-count range satisfies
`capMin ≤ capMax - 1`, the negotiated image count is the requested value
clamped into `[capMin, capMax - 1]` (and in particular lies in that
interval). -/
theorem c5_image_count (window : Extent2D) (surf : SurfaceInfo) (sc : SwapchainOut)
    (pm : PresentMode)
    (hsc : create_swapchain window surf = .ok sc)
    (hpm : choose_present_mode surf.present_modes = .ok pm)
    (hpos : 1 ≤ surf.caps_image_count_end)
    (hlo : surf.caps_image_count_start ≤ surf.caps_image_count_end - 1)
    (hrange : surf.caps_image_count_end < U32_MOD) :
    surf.caps_image_count_start ≤ sc.image_count ∧
    sc.image_count ≤ surf.caps_image_count_end - 1 ∧
    sc.image_count =
      max surf.caps_image_count_start
        (min (if pm = PresentMode.Mailbox then 3 else 2)
          (surf.caps_image_count_end - 1)) := by
  obtain ⟨-, -, ⟨pm2, hpm2, hcount⟩, -, -⟩ := create_swapchain_ok window surf sc hsc
  rw [hpm] at hpm2
  injection hpm2 with hpm3
  subst hpm3
  rw [hcount]
  unfold chosen_image_count
  rw [wsub_one_eq surf.caps_image_count_end hpos hrange]
  by_cases hm : pm = PresentMode.Mailbox
  · have hb : (pm == PresentMode.Mailbox) = true := by simp [hm]
    rw [if_pos hb, if_pos hm]
    refine ⟨?_, ?_, ?_⟩ <;> omega
  · have hb : ¬ ((pm == PresentMode.Mailbox) = true) := by simp [hm]
    rw [if_neg hb, if_neg hm]
    refine ⟨?_, ?_, ?_⟩ <;> omega

/-- Witness for C5: the Fifo surface with image counts 1..4 negotiates 2
images, the clamp of the request 2 into the interval [1, 3]. -/
theorem c5_image_count_witness :
    surfFifo.caps_image_count_start ≤ 2 ∧
    2 ≤ surfFifo.caps_image_count_end - 1 ∧
    2 = max surfFifo.caps_image_count_start
          (min (if PresentMode.Fifo = PresentMode.Mailbox then 3 else 2)
            (surfFifo.caps_image_count_end - 1)) := by
  have h := c5_image_count testWindow surfFifo
    { extent := { width := 400, height := 300 }, backbuffer := [0, 1],
      format := Format.Rgba8Srgb, image_count := 2 }
    PresentMode.Fifo (by decide) (by decide) (by decide) (by decide) (by decide)
  exact h

/-- Counterexample for C6: on a surface reporting the fixed extent 100 by
100 (minimum = maximum), a 50-by-40 window yields the swap-chain extent
50 by 40 — the window size, not the fixed extent the claim requires (the
spec-modelled clamp `spec_extent` would give 100 by 100). -/
theorem c6_fixed_extent_counterexample :
    create_swapchain { width := 50, height := 40 } surfFixedExtent =
      .ok { extent := { width := 50, height := 40 }, backbuffer := [0, 1],
            format := Format.Rgba8Srgb, image_count := 2 } ∧
    spec_extent surfFixedExtent.caps_extents_start surfFixedExtent.caps_extents_end
        { width := 50, height := 40 } = { width := 100, height := 100 } ∧
    ({ width := 50, height := 40 } : Extent2D) ≠ { width := 100, height := 100 } := by
  decide

/-- C6 as amended: the negotiated extent is the window client-area size
capped per dimension at the surface's maximum extent only; whenever the
window fits under the maximum it is used unchanged, regardless of the
surface's minimum (which the code never reads). -/
theorem c6_extent_amended (window : Extent2D) (surf : SurfaceInfo) (sc : SwapchainOut)
    (hsc : create_swapchain window surf = .ok sc) :
    sc.extent.width = min surf.caps_extents_end.width window.width ∧
    sc.extent.height = min surf.caps_extents_end.height window.height ∧
    (window.width ≤ surf.caps_extents_end.width →
      window.height ≤ surf.caps_extents_end.height →
      sc.extent = window) := by
  obtain ⟨hext, -, -, -, -⟩ := create_swapchain_ok window surf sc hsc
  rw [hext]
  unfold chosen_extent
  refine ⟨rfl, rfl, ?_⟩
  intro hw hh
  have h1 : min surf.caps_extents_end.width window.width = window.width := by omega
  have h2 : min surf.caps_extents_end.height window.height = window.height := by omega
  rw [h1, h2]

/-- Witness for C6 as amended: the 400-by-300 window fits under `surfFifo`'s
4096-by-4096 maximum extent and is used unchanged. -/
theorem c6_extent_amended_witness :
    ({ extent := { width := 400, height := 300 }, backbuffer := [0, 1],
       format := Format.Rgba8Srgb, image_count := 2 } : SwapchainOut).extent = testWindow := by
  have h := c6_extent_amended testWindow surfFifo
    { extent := { width := 400, height := 300 }, backbuffer := [0, 1],
      format := Format.Rgba8Srgb, image_count := 2 } (by decide)
  exact h.2.2 (by decide) (by decide)

/-- Counterexample for C4: after `HalState::new` on `surfFifo` (negotiated
count 2), a `recreate_swapchain` against `surfMailbox` (negotiated count 3)
leaves three image views and framebuffers but still two command buffers and
`frames_in_flight = 2`, so the claimed equality fails after that
recreation. -/
theorem c4_recreate_counterexample :
    HalState.new testWindow surfFifo okPenv = .ok testHal ∧
    (testHal.recreate_swapchain testWindow surfMailbox).map
        (fun s2 => (s2.image_views.length, s2.framebuffers.length,
                    s2.command_buffers.length, s2.frames_in_flight)) =
      .ok (3, 3, 2, 2) ∧
    (3 : Nat) ≠ 2 := by
  decide

/-- C4 as amended: immediately after a successful `HalState::new` the
equality `len(image_views) = len(framebuffers) = len(command_buffers) =
frames_in_flight = negotiated image count` holds; after a
`recreate_swapchain`, the image views and framebuffers follow the **newly**
negotiated image count while the command buffers and `frames_in_flight` keep
their original values, so the full equality survives a recreation only when
the renegotiated image count equals the original one. -/
theorem c4_lengths (w w2 : Extent2D) (surf surf2 : SurfaceInfo) (penv : PipelineEnv)
    (s0 s1 : HalState) (sc0 sc2 : SwapchainOut)
    (hsc0 : create_swapchain w surf = .ok sc0)
    (hnew : HalState.new w surf penv = .ok s0)
    (hsc2 : create_swapchain w2 surf2 = .ok sc2)
    (hrec : s0.recreate_swapchain w2 surf2 = .ok s1) :
    (s0.image_views.length = s0.frames_in_flight ∧
     s0.framebuffers.length = s0.frames_in_flight ∧
     s0.command_buffers.length = s0.frames_in_flight ∧
     s0.frames_in_flight = sc0.image_count) ∧
    (s1.image_views.length = sc2.image_count ∧
     s1.framebuffers.length = sc2.image_count ∧
     s1.command_buffers = s0.command_buffers ∧
     s1.frames_in_flight = s0.frames_in_flight ∧
     (sc2.image_count = s0.frames_in_flight →
       s1.image_views.length = s1.frames_in_flight ∧
       s1.framebuffers.length = s1.frames_in_flight ∧
       s1.command_buffers.length = s1.frames_in_flight)) := by
  obtain ⟨-, hbb0, -, -, -⟩ := create_swapchain_ok w surf sc0 hsc0
  obtain ⟨-, hbb2, -, -, -⟩ := create_swapchain_ok w2 surf2 sc2 hsc2
  unfold HalState.new at hnew
  rw [hsc0] at hnew
  cases hpl : (create_pipeline penv).result with
  | error e => rw [hpl] at hnew; cases hnew
  | ok pl =>
    rw [hpl] at hnew
    simp only at hnew
    injection hnew with hnew
    subst hnew
    unfold HalState.recreate_swapchain at hrec
    rw [hsc2] at hrec
    simp only at hrec
    injection hrec with hrec
    subst hrec
    refine ⟨⟨?_, ?_, ?_, rfl⟩, ?_, ?_, rfl, rfl, ?_⟩
    · simp [hbb0]
    · simp [hbb0]
    · simp [hbb0]
    · simp [hbb2]
    · simp [hbb2]
    · intro hsame
      refine ⟨?_, ?_, ?_⟩ <;> simp [hbb0, hbb2, hsame]

/-- Witness for C4 as amended: recreating against the same `surfFifo`
surface keeps the image count at 2, and every length equality holds. -/
theorem c4_lengths_witness :
    ({ testHal with swapchain := 1 } : HalState).image_views.length =
      ({ testHal with swapchain := 1 } : HalState).frames_in_flight := by
  have h := c4_lengths testWindow testWindow surfFifo surfFifo okPenv testHal
    { testHal with swapchain := 1 }
    { extent := { width := 400, height := 300 }, backbuffer := [0, 1],
      format := Format.Rgba8Srgb, image_count := 2 }
    { extent := { width := 400, height := 300 }, backbuffer := [0, 1],
      format := Format.Rgba8Srgb, image_count := 2 }
    (by decide) (by decide) (by decide) (by decide)
  exact (h.2.2.2.2.2 (by decide)).1

/-- C9: `recreate_swapchain` leaves the synchronization ring, the pipeline
objects, the command buffers and pool, the render pass, the vertex buffer,
`current_frame` and `frames_in_flight` untouched; only the swapchain
(generation), image views, framebuffers and render area are replaced, with
values derived from the new negotiation. -/
theorem c9_recreate_preserves (s : HalState) (w : Extent2D) (surf : SurfaceInfo)
    (s2 : HalState) (sc : SwapchainOut)
    (hsc : create_swapchain w surf = .ok sc)
    (hrec : s.recreate_swapchain w surf = .ok s2) :
    s2.in_flight_fences = s.in_flight_fences ∧
    s2.image_available_semaphores = s.image_available_semaphores ∧
    s2.render_finished_semaphores = s.render_finished_semaphores ∧
    s2.graphics_pipeline = s.graphics_pipeline ∧
    s2.pipeline_layout = s.pipeline_layout ∧
    s2.descriptor_set_layouts = s.descriptor_set_layouts ∧
    s2.command_buffers = s.command_buffers ∧
    s2.current_frame = s.current_frame ∧
    s2.frames_in_flight = s.frames_in_flight ∧
    s2.command_pool = s.command_pool ∧
    s2.render_pass = s.render_pass ∧
    s2.buffer = s.buffer ∧
    s2.memory = s.memory ∧
    s2.image_views = sc.backbuffer.map (fun im => 3000 + im) ∧
    s2.framebuffers = sc.backbuffer.map (fun im => 4000 + im) ∧
    s2.render_area = sc.extent.rect ∧
    s2.swapchain = s.swapchain + 1 := by
  unfold HalState.recreate_swapchain at hrec
  rw [hsc] at hrec
  simp only at hrec
  injection hrec with hrec
  subst hrec
  exact ⟨rfl, rfl, rfl, rfl, rfl, rfl, rfl, rfl, rfl, rfl, rfl, rfl, rfl, rfl, rfl, rfl, rfl⟩

/-- Witness for C9 at the concrete two-image state. -/
theorem c9_recreate_preserves_witness :
    ({ testHal with swapchain := 1 } : HalState).in_flight_fences =
      testHal.in_flight_fences := by
  have h := c9_recreate_preserves testHal testWindow surfFifo
    { testHal with swapchain := 1 }
    { extent := { width := 400, height := 300 }, backbuffer := [0, 1],
      format := Format.Rgba8Srgb, image_count := 2 }
    (by decide) (by decide)
  exact h.1

/-- C1 (code bug): on a two-slot state at rotation slot 0 with a successful
acquisition, `draw_triangle_frame` hands semaphore 1001 — the slot selected
by the **already advanced** frame counter — to `acquire_image`, while the
subsequent submission waits on semaphore 1000, the slot read before the
advance; the two differ, violating the required pairing.  `draw_clear_frame`
passes the same semaphore to both, as the claim (and the spec) requires. -/
theorem c1_semaphore_mismatch :
    (testHal.draw_triangle_frame envOk).trace.acquire_semaphore = some 1001 ∧
    (testHal.draw_triangle_frame envOk).trace.submit_wait_semaphore = some 1000 ∧
    (testHal.draw_triangle_frame envOk).trace.acquire_semaphore ≠
      (testHal.draw_triangle_frame envOk).trace.submit_wait_semaphore ∧
    (testHal.draw_triangle_frame envOk).trace.submit_wait_stage =
      some PipelineStage.COLOR_ATTACHMENT_OUTPUT ∧
    (testHal.draw_clear_frame envOk).trace.acquire_semaphore =
      (testHal.draw_clear_frame envOk).trace.submit_wait_semaphore ∧
    (testHal.draw_clear_frame envOk).trace.acquire_semaphore = some 1000 := by
  decide

/-- Counterexample for C3: when `acquire_image` reports the swap chain out
of date, `draw_triangle_frame` panics (the source `.unwrap()`s the result)
instead of returning an error value, and the render loop aborts instead of
continuing. -/
theorem c3_acquire_panic_counterexample :
    (testHal.draw_triangle_frame envOutOfDate).outcome =
      Outcome.panicked "acquire_image failed" ∧
    (main_loop_iteration { end_requested := false, new_frame_size := none } testHal
        testWindow surfFifo envOutOfDate).fst =
      LoopStep.panicked "acquire_image failed" := by
  decide

set_option maxHeartbeats 1600000 in
/-- C3 as amended: after a successful acquisition on a well-formed state,
every failing later step returns an `Err` value to the caller — a failed
fence wait or fence reset (both draw functions), a failed vertex-buffer
mapping acquire or release (`draw_triangle_frame`), and a failed
presentation — and the render loop reports any returned error and continues
with the next poll iteration; an acquisition failure (including
out-of-date), however, panics via `.unwrap()` instead of being returned. -/
theorem c3_err_continues (inputs : PollInput) (s : HalState) (w : Extent2D)
    (surf : SurfaceInfo) (env : FrameEnv) (i : Nat)
    (hend : inputs.end_requested = false)
    (hres : inputs.new_frame_size = none)
    (hacq : env.acquire = AcquireResult.success i)
    (h1 : 1 ≤ s.frames_in_flight)
    (hcf : s.current_frame < s.frames_in_flight)
    (hia : s.image_available_semaphores.length = s.frames_in_flight)
    (hrf : s.render_finished_semaphores.length = s.frames_in_flight)
    (hfen : i < s.in_flight_fences.length) :
    (env.wait_fence_ok = false →
      (s.draw_triangle_frame env).outcome = Outcome.err "Failed to wait on the fence!" ∧
      (s.draw_clear_frame env).outcome = Outcome.err "Failed to wait on the fence!") ∧
    (env.wait_fence_ok = true → env.reset_fence_ok = false →
      (s.draw_triangle_frame env).outcome = Outcome.err "Couldnt reset the fence!" ∧
      (s.draw_clear_frame env).outcome = Outcome.err "Couldnt reset the fence!") ∧
    (env.wait_fence_ok = true → env.reset_fence_ok = true → env.acquire_writer_ok = false →
      (s.draw_triangle_frame env).outcome =
        Outcome.err "Failed to acquire a memory writer!") ∧
    (env.wait_fence_ok = true → env.reset_fence_ok = true → env.acquire_writer_ok = true →
      env.release_writer_ok = false →
      (s.draw_triangle_frame env).outcome =
        Outcome.err "Couldnt release the mapping writer!") ∧
    (env.wait_fence_ok = true → env.reset_fence_ok = true → env.present_ok = false →
      i < s.command_buffers.length → i < s.framebuffers.length →
      s.queue_group_queues ≠ [] →
      (s.draw_clear_frame env).outcome =
        Outcome.err "Failed to present into the swapchain!") ∧
    (env.wait_fence_ok = true → env.reset_fence_ok = true → env.acquire_writer_ok = true →
      env.release_writer_ok = true → env.present_ok = false →
      i < s.command_buffers.length → i < s.framebuffers.length →
      s.queue_group_queues ≠ [] →
      (s.draw_triangle_frame env).outcome =
        Outcome.err "Failed to present into the swapchain!") ∧
    (∀ m, (s.draw_triangle_frame env).outcome = Outcome.err m →
      main_loop_iteration inputs s w surf env =
        (LoopStep.continued, (s.draw_triangle_frame env).state)) := by
  have hne : ¬ (s.frames_in_flight = 0) := by omega
  have hget1 : s.image_available_semaphores.get? s.current_frame =
      some (s.image_available_semaphores.get ⟨s.current_frame, by omega⟩) :=
    List.get?_eq_get (by omega)
  have hget2 : s.render_finished_semaphores.get? s.current_frame =
      some (s.render_finished_semaphores.get ⟨s.current_frame, by omega⟩) :=
    List.get?_eq_get (by omega)
  have hget3 : s.image_available_semaphores.get? ((s.current_frame + 1) % s.frames_in_flight) =
      some (s.image_available_semaphores.get
        ⟨(s.current_frame + 1) % s.frames_in_flight, by
          exact Nat.lt_of_lt_of_le (Nat.mod_lt _ (by omega)) (by omega)⟩) :=
    List.get?_eq_get (by
      exact Nat.lt_of_lt_of_le (Nat.mod_lt _ (by omega)) (by omega))
  have hgf : s.in_flight_fences.get? i = some (s.in_flight_fences.get ⟨i, hfen⟩) :=
    List.get?_eq_get hfen
  refine ⟨?_, ?_, ?_, ?_, ?_, ?_, ?_⟩
  · intro hw
    refine ⟨?_, ?_⟩ <;>
    · simp only [HalState.draw_triangle_frame, HalState.draw_clear_frame,
        hget1, hget2, hget3, hacq, hgf]
      rw [if_neg hne]
      simp [hw]
  · intro hw hr
    refine ⟨?_, ?_⟩ <;>
    · simp only [HalState.draw_triangle_frame, HalState.draw_clear_frame,
        hget1, hget2, hget3, hacq, hgf]
      rw [if_neg hne]
      simp [hw, hr]
  · intro hw hr ha
    simp only [HalState.draw_triangle_frame, hget1, hget2, hget3, hacq, hgf]
    rw [if_neg hne]
    simp [hw, hr, ha]
  · intro hw hr ha hrel
    simp only [HalState.draw_triangle_frame, hget1, hget2, hget3, hacq, hgf]
    rw [if_neg hne]
    simp [hw, hr, ha, hrel]
  · intro hw hr hp hcb hfb hq
    have hcb2 : s.command_buffers.get? i = some (s.command_buffers.get ⟨i, hcb⟩) :=
      List.get?_eq_get hcb
    have hfb2 : s.framebuffers.get? i = some (s.framebuffers.get ⟨i, hfb⟩) :=
      List.get?_eq_get hfb
    have hq0 : 0 < s.queue_group_queues.length := List.length_pos.mpr hq
    have hq2 : s.queue_group_queues.get? 0 =
        some (s.queue_group_queues.get ⟨0, hq0⟩) := List.get?_eq_get hq0
    simp only [HalState.draw_clear_frame, hget1, hget2, hacq, hgf, hcb2, hfb2, hq2]
    rw [if_neg hne]
    simp [hw, hr, hp]
  · intro hw hr ha hrel hp hcb hfb hq
    have hcb2 : s.command_buffers.get? i = some (s.command_buffers.get ⟨i, hcb⟩) :=
      List.get?_eq_get hcb
    have hfb2 : s.framebuffers.get? i = some (s.framebuffers.get ⟨i, hfb⟩) :=
      List.get?_eq_get hfb
    have hq0 : 0 < s.queue_group_queues.length := List.length_pos.mpr hq
    have hq2 : s.queue_group_queues.get? 0 =
        some (s.queue_group_queues.get ⟨0, hq0⟩) := List.get?_eq_get hq0
    simp only [HalState.draw_triangle_frame, hget1, hget2, hget3, hacq, hgf, hcb2, hfb2, hq2]
    rw [if_neg hne]
    simp [hw, hr, ha, hrel, hp]
  · intro m hm
    unfold main_loop_iteration
    rw [hend, hres]
    simp [hm]

/-- Witness for C3 as amended: on the concrete two-image state, a failed
fence wait makes the draw return the wait error, and the loop continues. -/
theorem c3_err_continues_witness :
    (testHal.draw_triangle_frame envWaitFail).outcome =
      Outcome.err "Failed to wait on the fence!" ∧
    main_loop_iteration { end_requested := false, new_frame_size := none } testHal
      testWindow surfFifo envWaitFail =
      (LoopStep.continued, (testHal.draw_triangle_frame envWaitFail).state) := by
  have h := c3_err_continues { end_requested := false, new_frame_size := none } testHal
    testWindow surfFifo envWaitFail 0 rfl rfl (by decide) (by decide) (by decide)
    (by decide) (by decide) (by decide)
  exact ⟨(h.1 (by decide)).1,
    h.2.2.2.2.2.2 "Failed to wait on the fence!" ((h.1 (by decide)).1)⟩

/-- Counterexample for C8: when graphics-pipeline creation fails (after both
shader modules were created), `create_pipeline` returns the error without
destroying either shader module — they leak, contradicting the claim that
both are always destroyed before the function returns. -/
theorem c8_leak_counterexample :
    (create_pipeline penvPipelineFail).result =
      .error "Couldnt create a graphics pipeline!" ∧
    (create_pipeline penvPipelineFail).destroyed_modules = [] ∧
    ¬ (VERTEX_MODULE ∈ (create_pipeline penvPipelineFail).destroyed_modules ∧
       FRAGMENT_MODULE ∈ (create_pipeline penvPipelineFail).destroyed_modules) := by
  decide

/-- C8 as amended: `create_pipeline` destroys both shader modules exactly on
the success path; every error return — including those from descriptor-set
layout, pipeline layout or graphics-pipeline creation, which run after both
modules exist — happens with no module destroyed. -/
theorem c8_destroy_on_success (env : PipelineEnv) :
    (∀ out, (create_pipeline env).result = .ok out →
      (create_pipeline env).destroyed_modules = [VERTEX_MODULE, FRAGMENT_MODULE]) ∧
    (∀ m, (create_pipeline env).result = .error m →
      (create_pipeline env).destroyed_modules = []) := by
  obtain ⟨a, b, c, d, e, f, g, h⟩ := env
  cases a <;> cases b <;> cases c <;> cases d <;> cases e <;> cases f <;> cases g <;>
    cases h <;> simp [create_pipeline]

/-- Witness for C8 as amended: on the all-success environment both modules
are destroyed. -/
theorem c8_destroy_on_success_witness :
    (create_pipeline okPenv).destroyed_modules = [VERTEX_MODULE, FRAGMENT_MODULE] := by
  have h := c8_destroy_on_success okPenv
  exact h.1 { descriptor_set_layouts := [71], pipeline_layout := 72, graphics_pipeline := 73 }
    (by decide)

/-- C2: in both `draw_clear_frame` and `draw_triangle_frame`, whenever a
fence is waited on, reset, or armed at submission, it is the in-flight fence
indexed by the **acquired image index**, and the fence armed by the
submission is exactly the one that was waited on and reset. -/
theorem c2_fence_indexing (s : HalState) (env : FrameEnv) (i f : Nat)
    (hacq : env.acquire = AcquireResult.success i) :
    (((s.draw_clear_frame env).trace.waited_fence = some f ∨
      (s.draw_clear_frame env).trace.fence_reset = some f ∨
      (s.draw_clear_frame env).trace.submit_fence = some f) →
        s.in_flight_fences.get? i = some f) ∧
    ((s.draw_clear_frame env).trace.submit_fence = some f →
      (s.draw_clear_frame env).trace.waited_fence = some f ∧
      (s.draw_clear_frame env).trace.fence_reset = some f) ∧
    (((s.draw_triangle_frame env).trace.waited_fence = some f ∨
      (s.draw_triangle_frame env).trace.fence_reset = some f ∨
      (s.draw_triangle_frame env).trace.submit_fence = some f) →
        s.in_flight_fences.get? i = some f) ∧
    ((s.draw_triangle_frame env).trace.submit_fence = some f →
      (s.draw_triangle_frame env).trace.waited_fence = some f ∧
      (s.draw_triangle_frame env).trace.fence_reset = some f) := by
  refine ⟨?_, ?_, ?_, ?_⟩ <;>
  · simp only [HalState.draw_clear_frame, HalState.draw_triangle_frame, hacq]
    repeat' split
    all_goals simp_all [FrameTrace.empty]

/-- Witness for C2 at the concrete two-image state: image 0 is acquired and
fence 0 — `in_flight_fences[0]` — is the waited, reset and armed fence. -/
theorem c2_fence_indexing_witness :
    testHal.in_flight_fences.get? 0 = some 0 := by
  have h := c2_fence_indexing testHal envOk 0 0 rfl
  exact h.1 (Or.inl (by decide))

set_option maxHeartbeats 1600000 in
/-- C10: every state produced by `HalState::new` starts at rotation slot 0;
with `frames_in_flight ≥ 1` and the semaphore rings of matching length, each
draw call advances `current_frame` to `(current_frame + 1) %
frames_in_flight`, keeps it strictly below `frames_in_flight`, and the
indexing of the two semaphore rings by the frame counter never goes out of
bounds in either draw function. -/
theorem c10_frame_counter (w : Extent2D) (surf : SurfaceInfo) (penv : PipelineEnv)
    (s0 s : HalState) (env : FrameEnv)
    (hnew : HalState.new w surf penv = .ok s0)
    (h1 : 1 ≤ s.frames_in_flight)
    (hcf : s.current_frame < s.frames_in_flight)
    (hia : s.image_available_semaphores.length = s.frames_in_flight)
    (hrf : s.render_finished_semaphores.length = s.frames_in_flight) :
    s0.current_frame = 0 ∧
    (s.draw_clear_frame env).state.current_frame =
      (s.current_frame + 1) % s.frames_in_flight ∧
    (s.draw_triangle_frame env).state.current_frame =
      (s.current_frame + 1) % s.frames_in_flight ∧
    (s.draw_clear_frame env).state.current_frame < s.frames_in_flight ∧
    (s.draw_triangle_frame env).state.current_frame < s.frames_in_flight ∧
    (s.draw_clear_frame env).state.frames_in_flight = s.frames_in_flight ∧
    (s.draw_triangle_frame env).state.frames_in_flight = s.frames_in_flight ∧
    (s.draw_clear_frame env).outcome ≠ Outcome.panicked "semaphore index out of bounds" ∧
    (s.draw_triangle_frame env).outcome ≠ Outcome.panicked "semaphore index out of bounds" := by
  have hne : ¬ (s.frames_in_flight = 0) := by omega
  have hmod : (s.current_frame + 1) % s.frames_in_flight < s.frames_in_flight :=
    Nat.mod_lt _ (by omega)
  have hget1 : s.image_available_semaphores.get? s.current_frame =
      some (s.image_available_semaphores.get ⟨s.current_frame, by omega⟩) :=
    List.get?_eq_get (by omega)
  have hget2 : s.render_finished_semaphores.get? s.current_frame =
      some (s.render_finished_semaphores.get ⟨s.current_frame, by omega⟩) :=
    List.get?_eq_get (by omega)
  have hget3 : s.image_available_semaphores.get? ((s.current_frame + 1) % s.frames_in_flight) =
      some (s.image_available_semaphores.get
        ⟨(s.current_frame + 1) % s.frames_in_flight, by omega⟩) :=
    List.get?_eq_get (by omega)
  refine ⟨?_, ?_, ?_, ?_, ?_, ?_, ?_, ?_, ?_⟩
  · cases hsc : create_swapchain w surf with
    | error e => unfold HalState.new at hnew; rw [hsc] at hnew; cases hnew
    | ok sc =>
      unfold HalState.new at hnew
      rw [hsc] at hnew
      cases hpl : (create_pipeline penv).result with
      | error e => rw [hpl] at hnew; cases hnew
      | ok pl =>
        rw [hpl] at hnew
        simp only at hnew
        injection hnew with hnew
        subst hnew
        rfl
  all_goals
  · clear hnew
    simp only [HalState.draw_clear_frame, HalState.draw_triangle_frame,
      hget1, hget2, hget3]
    rw [if_neg hne]
    repeat' split
    all_goals first
      | rfl
      | exact hmod
      | simp_all

/-- Witness for C10 at the concrete two-image state produced by
`HalState::new`: a clear draw advances the counter from 0 to 1 = (0+1) % 2. -/
theorem c10_frame_counter_witness :
    testHal.current_frame = 0 ∧
    (testHal.draw_clear_frame envOk).state.current_frame =
      (testHal.current_frame + 1) % testHal.frames_in_flight := by
  have h := c10_frame_counter testWindow surfFifo okPenv testHal testHal envOk
    (by decide) (by decide) (by decide) (by decide) (by decide)
  exact ⟨h.1, h.2.1⟩
